import Mathlib

/-!
# Verification of the Compass reporting pipeline

Shallow embedding of the analytics-to-document rendering pipeline of the
Compass repository (`src/backend/reporting/metric_parser.py` and
`src/backend/reporting/report_generator.py`), together with theorems that
settle the frozen claims about it.

Modelling conventions:
* Python floats are modelled as `ℚ`; fixed-point formatting uses round half
  to even at the requested precision (matching IEEE formatting for the short
  decimal values occurring in the program).
* Python strings are modelled as `String` / `List Char`; the regular
  expressions of the source are translated into explicit search/match
  functions over character lists with the exact greedy/lazy semantics of
  each concrete pattern.
* `pandas` data frames are modelled by `PyTable`: a list of named, typed
  columns and a list of rows of cell values.
* Exceptions (`KeyError` of a column lookup) are modelled with `Except`.
-/

namespace Compass

/-- ASCII whitespace as recognised by Python `str.strip`, `str.split` and
the regex class `\s`. -/
def isWs (c : Char) : Bool :=
  c = ' ' || c = '\t' || c = '\n' || c = '\r' || c = '\x0b' || c = '\x0c'

/-- Python word character for the regex `\b` boundary: `[a-zA-Z0-9_]`. -/
def isWordCh (c : Char) : Bool :=
  c.isAlphanum || c = '_'

/-- Left strip on character lists. -/
def lstripL (l : List Char) : List Char := l.dropWhile isWs

/-- Right strip on character lists. -/
def rstripL (l : List Char) : List Char := ((l.reverse).dropWhile isWs).reverse

/-- Python `str.strip()` on character lists. -/
def pyStripL (l : List Char) : List Char := rstripL (lstripL l)

/-- Python `str.strip()`. -/
def pyStrip (s : String) : String := String.mk (pyStripL s.data)

/-- Lower-case a character list (`str.lower()`; the source only manipulates
ASCII text). -/
def lowerL (l : List Char) : List Char := l.map Char.toLower

/-- Python `str.lower()`. -/
def pyLower (s : String) : String := String.mk (lowerL s.data)

/-- Is `pat` a prefix of `l`, comparing case-insensitively (`pat` is given
in lower case)? -/
def isPrefixCI : List Char → List Char → Bool
  | [], _ => true
  | _ :: _, [] => false
  | p :: ps, c :: cs => p = c.toLower && isPrefixCI ps cs

/-- Does `l` contain `pat` as a contiguous substring (Python `pat in l`)? -/
def containsSub (l pat : List Char) : Bool :=
  if pat.isPrefixOf l then true
  else
    match l with
    | [] => false
    | _ :: t => containsSub t pat

/-- Python `kw in s` for strings. -/
def strContains (s kw : String) : Bool := containsSub s.data kw.data

/-- Python `s[:n]` for a natural bound (all slice uses in the source have a
non-negative bound). -/
def pyTakeStr (s : String) (n : ℕ) : String := String.mk (s.data.take n)

/-- Python `str.replace('_', ' ')`. -/
def pyReplaceUnderscore (s : String) : String :=
  String.mk (s.data.map (fun c => if c = '_' then ' ' else c))

/-- Python `str.title()`: the first letter of every run of cased characters
is upper-cased, the rest lower-cased (ASCII behaviour). -/
def pyTitleGo : Bool → List Char → List Char
  | _, [] => []
  | prevAlpha, c :: cs =>
    if c.isAlpha then
      (if prevAlpha then c.toLower else c.toUpper) :: pyTitleGo true cs
    else
      c :: pyTitleGo false cs

/-- Python `str.title()`. -/
def pyTitle (s : String) : String := String.mk (pyTitleGo false s.data)

/-- Python `str.split()` (split on whitespace runs, dropping empty parts). -/
def splitWsGo : List Char → List Char → List String
  | acc, [] => if acc.isEmpty then [] else [String.mk acc.reverse]
  | acc, c :: cs =>
    if isWs c then
      if acc.isEmpty then splitWsGo [] cs
      else String.mk acc.reverse :: splitWsGo [] cs
    else splitWsGo (c :: acc) cs

/-- Python `str.split()`. -/
def pySplitWs (s : String) : List String := splitWsGo [] s.data

/-! ## Numbers and Python-style numeric formatting -/

/-- Value of a list of decimal digit characters. -/
def digitsToNat (ds : List Char) : ℕ :=
  ds.foldl (fun acc c => 10 * acc + (c.toNat - 48)) 0

/-- Python `float()` applied to a regex capture of shape
`[+-]?\d+(\.\d*)?` (every capture handed to `float` by the parser has this
shape). The optional sign is split off exactly as in `signSplit` below. -/
def pyFloatSigned (sgn rest : List Char) : ℚ :=
  let ip := rest.takeWhile Char.isDigit
  let rest2 := rest.dropWhile Char.isDigit
  let fp :=
    match rest2 with
    | '.' :: t => t.takeWhile Char.isDigit
    | _ => []
  let v : ℚ := (digitsToNat ip : ℚ) + (digitsToNat fp : ℚ) / ((10 : ℚ) ^ fp.length)
  if sgn = ['-'] then -v else v

/-- Round half to even to the nearest integer (the rounding used by Python
`format` for `f`-style conversions). -/
def rhe (q : ℚ) : ℤ :=
  let f := ⌊q⌋
  let r := q - f
  if r < 1/2 then f
  else if 1/2 < r then f + 1
  else if f % 2 = 0 then f else f + 1

/-- Python truncating conversion `int(x)` on a float. -/
def intTrunc (q : ℚ) : ℤ :=
  if 0 ≤ q then ⌊q⌋ else -⌊-q⌋

/-- Insert thousands separators into a digit string (for `,` format specs). -/
def groupDigitsGo : List Char → List Char
  | d₁ :: d₂ :: d₃ :: d₄ :: rest => d₁ :: d₂ :: d₃ :: ',' :: groupDigitsGo (d₄ :: rest)
  | l => l

/-- `12345 ↦ "12,345"`. -/
def groupThousands (n : ℕ) : String :=
  String.mk (groupDigitsGo (toString n).data.reverse).reverse

/-- Python `f"{q:.1f}"` (and `f"{q:+.1f}"` when `forceSign` is set). -/
def fmtFixed1 (q : ℚ) (forceSign : Bool) : String :=
  let m := (rhe (|q| * 10)).toNat
  (if q < 0 then "-" else if forceSign then "+" else "") ++
    toString (m / 10) ++ "." ++ toString (m % 10)

/-- Python `f"{q:+.2f}"`. -/
def fmtFixed2Signed (q : ℚ) : String :=
  let m := (rhe (|q| * 100)).toNat
  (if q < 0 then "-" else "+") ++
    toString (m / 100) ++ "." ++ toString (m % 100 / 10) ++ toString (m % 10)

/-- Python `f"{q:,.0f}"`. -/
def fmtComma0 (q : ℚ) : String :=
  (if q < 0 then "-" else "") ++ groupThousands (rhe |q|).toNat

/-- Python `f"{q:,.1f}"`. -/
def fmtComma1 (q : ℚ) : String :=
  let m := (rhe (|q| * 10)).toNat
  (if q < 0 then "-" else "") ++ groupThousands (m / 10) ++ "." ++ toString (m % 10)

/-- Python `f"{n:,}"` for an integer. -/
def fmtCommaInt (n : ℤ) : String :=
  (if n < 0 then "-" else "") ++ groupThousands n.natAbs

/-! ## MetricParser (`metric_parser.py`)

Each compiled pattern of `MetricParser.PATTERNS` is translated into an
explicit match-at-position function; `re.search` is the leftmost position
at which the match function succeeds. -/

/-- `re.search`: try the match function at every position, left to right. -/
def searchWith {α : Type} (m : List Char → Option α) : List Char → Option α
  | [] => m []
  | c :: cs =>
    match m (c :: cs) with
    | some g => some g
    | none => searchWith m cs

/-- Consume an optional leading `[+-]`, returning the consumed sign
characters and the remainder. -/
def signSplit (l : List Char) : List Char × List Char :=
  match l with
  | c :: cs => if c = '+' || c = '-' then ([c], cs) else ([], l)
  | [] => ([], [])

/-- Python `float()` on a capture: split the optional sign, then read the
digits. -/
def pyFloat (g : List Char) : ℚ :=
  let s := signSplit g
  pyFloatSigned s.1 s.2

/-- The body of the `percentage` pattern after the optional sign:
`\d+\.?\d*\s*%`. Returns the full capture (sign included). -/
def percTail (sgn l1 : List Char) : Option (List Char) :=
  let d1 := l1.takeWhile Char.isDigit
  if d1.isEmpty then none
  else
    let l2 := l1.dropWhile Char.isDigit
    let (dot, l3) :=
      match l2 with
      | '.' :: cs => (['.'], cs)
      | _ => (([] : List Char), l2)
    let d2 := l3.takeWhile Char.isDigit
    let l4 := l3.dropWhile Char.isDigit
    match l4.dropWhile isWs with
    | '%' :: _ => some (sgn ++ d1 ++ dot ++ d2)
    | _ => none

/-- Match `([+-]?\d+\.?\d*)\s*%` (pattern `percentage`) at the current
position; returns the capture. -/
def percMatchAt (l : List Char) : Option (List Char) :=
  let s := signSplit l
  percTail s.1 s.2

/-- Match `([+-]?\d+\.?\d*)\s*%\s*growth` (pattern `growth_percentage`,
`re.IGNORECASE`) at the current position. -/
def growthPercMatchAt (l : List Char) : Option (List Char) :=
  let s := signSplit l
  let l1 := s.2
  let d1 := l1.takeWhile Char.isDigit
  if d1.isEmpty then none
  else
    let l2 := l1.dropWhile Char.isDigit
    let (dot, l3) :=
      match l2 with
      | '.' :: cs => (['.'], cs)
      | _ => (([] : List Char), l2)
    let d2 := l3.takeWhile Char.isDigit
    let l4 := l3.dropWhile Char.isDigit
    match l4.dropWhile isWs with
    | '%' :: rest =>
      if isPrefixCI "growth".data (rest.dropWhile isWs) then some (s.1 ++ d1 ++ dot ++ d2)
      else none
    | _ => none

/-- Match `(\d+)\s*requests?` (pattern `requests`, case sensitive). -/
def requestsMatchAt (l : List Char) : Option (List Char) :=
  let d1 := l.takeWhile Char.isDigit
  if d1.isEmpty then none
  else
    let l2 := (l.dropWhile Char.isDigit).dropWhile isWs
    if "request".data.isPrefixOf l2 then some d1 else none

/-- Match `([+-]?\d+)\s*(?:requests?|items?|units?)?\s*(?:increase|decrease)`
(pattern `increase`, `re.IGNORECASE`); the optional noun group backtracks
through its alternatives in regex order. -/
def increaseMatchAt (l : List Char) : Option (List Char) :=
  let s := signSplit l
  let sgn := s.1
  let l1 := s.2
  let d1 := l1.takeWhile Char.isDigit
  if d1.isEmpty then none
  else
    let l2 := (l1.dropWhile Char.isDigit).dropWhile isWs
    let incDecAfter : List Char → Bool := fun r =>
      let r2 := r.dropWhile isWs
      isPrefixCI "increase".data r2 || isPrefixCI "decrease".data r2
    let nouns := ["requests", "request", "items", "item", "units", "unit", ""]
    if nouns.any (fun n => isPrefixCI n.data l2 && incDecAfter (l2.drop n.length)) then
      some (sgn ++ d1)
    else none

/-- Match `(\d+)\s*(?:requests?|items?|units?|cases?)` (pattern `count`,
case sensitive). -/
def countMatchAt (l : List Char) : Option (List Char) :=
  let d1 := l.takeWhile Char.isDigit
  if d1.isEmpty then none
  else
    let l2 := (l.dropWhile Char.isDigit).dropWhile isWs
    let nouns := ["requests", "request", "items", "item", "units", "unit", "cases", "case"]
    if nouns.any (fun n => n.data.isPrefixOf l2) then some d1 else none

/-- Match `([+-]?\d+\.?\d*)` (the final "any number" fallback). -/
def numberMatchAt (l : List Char) : Option (List Char) :=
  let s := signSplit l
  let l1 := s.2
  let d1 := l1.takeWhile Char.isDigit
  if d1.isEmpty then none
  else
    let l2 := l1.dropWhile Char.isDigit
    let (dot, l3) :=
      match l2 with
      | '.' :: cs => (['.'], cs)
      | _ => (([] : List Char), l2)
    some (s.1 ++ d1 ++ dot ++ l3.takeWhile Char.isDigit)

/-- `MetricParser._extract_value_and_unit`: the priority ladder, first
match wins (percentage is tried first). -/
def extractValueAndUnit (t : List Char) : Option ℚ × Option String :=
  match searchWith percMatchAt t with
  | some g => (some (pyFloat g), some "%")
  | none =>
  match searchWith growthPercMatchAt t with
  | some g => (some (pyFloat g), some "%")
  | none =>
  match searchWith requestsMatchAt t with
  | some g => (some (pyFloat g), some "requests")
  | none =>
  match searchWith increaseMatchAt t with
  | some g =>
    (some (pyFloat g), some (if containsSub (lowerL t) "request".data then "requests" else "units"))
  | none =>
  match searchWith countMatchAt t with
  | some g => (some (pyFloat g), some "units")
  | none =>
  match searchWith numberMatchAt t with
  | some g => (some (pyFloat g), none)
  | none => (none, none)

/-- `MetricParser._determine_type`: first keyword table entry whose keyword
occurs in the lower-cased text wins (`TYPE_KEYWORDS` declaration order). -/
def determineType (t : List Char) : String :=
  let tl := lowerL t
  if ["growth", "increase", "decrease", "change", "trend"].any
      (fun k => containsSub tl k.data) then "growth"
  else if ["requests", "volume", "total", "count"].any
      (fun k => containsSub tl k.data) then "volume"
  else if ["%", "percent", "percentage"].any
      (fun k => containsSub tl k.data) then "percentage"
  else if ["time", "duration", "hours", "days", "minutes"].any
      (fun k => containsSub tl k.data) then "time"
  else "unknown"

/-- Category pattern 1: `in\s+([A-Z][a-zA-Z\s&,]+?)(?:\s|$|,|\.)`.
Because whitespace and `,` belong both to the lazy class and to the
terminator, the lazy group stops at the first whitespace/comma/dot/end and
therefore captures exactly a run of letters and `&`. -/
def cat1MatchAt (l : List Char) : Option (List Char) :=
  match l with
  | 'i' :: 'n' :: rest =>
    if (rest.takeWhile isWs).isEmpty then none
    else
      match rest.dropWhile isWs with
      | c0 :: r2 =>
        if c0.isUpper then
          let xs := r2.takeWhile (fun c => c.isAlpha || c = '&')
          match r2.dropWhile (fun c => c.isAlpha || c = '&') with
          | [] => some (c0 :: xs)
          | c :: _ => if isWs c || c = ',' || c = '.' then some (c0 :: xs) else none
        else none
      | [] => none
  | _ => none

/-- Does `rest` start with `\s+` followed by one of `kws` (case
sensitive)? -/
def wsThenKw (kws : List String) (rest : List Char) : Bool :=
  !(rest.takeWhile isWs).isEmpty &&
    kws.any (fun k => k.data.isPrefixOf (rest.dropWhile isWs))

/-- Lazy growth of `([A-Z][a-zA-Z\s&,]+?)` followed by `\s+` and one of
`kws`: extend the capture one class character at a time, checking the
terminator first (lazy semantics). -/
def catLazyGo (kws : List String) (acc : List Char) : List Char → Option (List Char)
  | [] => none
  | c :: cs =>
    if wsThenKw kws (c :: cs) then some acc
    else if c.isAlpha || isWs c || c = '&' || c = ',' then
      catLazyGo kws (acc ++ [c]) cs
    else none

/-- Category patterns 2 and 3: `([A-Z][a-zA-Z\s&,]+?)\s+(?:kw|...)`. -/
def catKwMatchAt (kws : List String) (l : List Char) : Option (List Char) :=
  match l with
  | c0 :: rest => if c0.isUpper then catLazyGo kws [c0] rest else none
  | [] => none

/-- The clean-up substitution
`re.sub(r'\s+(with|shows|has|is|requests?|growth|increase)', '', category,
flags=re.IGNORECASE)` applied after a category capture.  `fuel` bounds the
scan by the length of the input, which one character is consumed per step
of. -/
def cleanupSubGo (fuel : ℕ) : List Char → List Char
  | [] => []
  | c :: cs =>
    match fuel with
    | 0 => c :: cs
    | fuel + 1 =>
      if isWs c then
        let r := (c :: cs).dropWhile isWs
        let kws := ["with", "shows", "has", "is", "requests", "request", "growth", "increase"]
        match kws.find? (fun k => isPrefixCI k.data r) with
        | some k => cleanupSubGo fuel (r.drop k.length)
        | none => c :: cleanupSubGo fuel cs
      else c :: cleanupSubGo fuel cs

/-- Clean-up substitution on a capture. -/
def cleanupSub (l : List Char) : List Char := cleanupSubGo l.length l

/-- One step of `_extract_category`: a successful pattern match is stripped,
cleaned up and accepted only if longer than 3 characters. -/
def catAccept (m : Option (List Char)) : Option String :=
  match m with
  | none => none
  | some g =>
    let c := cleanupSub (pyStripL g)
    if 3 < c.length then some (String.mk c) else none

/-- `MetricParser._extract_category`: the three patterns in order, first
acceptable capture wins. -/
def extractCategory (t : List Char) : Option String :=
  match catAccept (searchWith cat1MatchAt t) with
  | some c => some c
  | none =>
  match catAccept (searchWith (catKwMatchAt ["with", "shows", "has", "is"]) t) with
  | some c => some c
  | none => catAccept (searchWith (catKwMatchAt ["request", "growth", "increase"]) t)

/-- Search for `\+\d` (used by `_determine_trend`). -/
def plusDigitAt (l : List Char) : Option Unit :=
  match l with
  | '+' :: d :: _ => if d.isDigit then some () else none
  | _ => none

/-- `MetricParser._determine_trend`. -/
def determineTrend (t : List Char) : Option String :=
  let tl := lowerL t
  if ["increase", "growth", "up", "rise", "higher", "+"].any
      (fun k => containsSub tl k.data) then some "up"
  else if ["decrease", "decline", "down", "fall", "lower", "-"].any
      (fun k => containsSub tl k.data) then some "down"
  else if containsSub t ['+'] || (searchWith plusDigitAt t).isSome then some "up"
  else if containsSub t ['-'] && !(t.headD ' ' = '-' && !t.isEmpty) then some "down"
  else none

/-- First substitution of the fallback label:
`re.sub(r'\d+\.?\d*\s*%?', '', text)`.  `fuel` bounds the scan by the
input length; at least one character is consumed per step. -/
def labelSub1Go (fuel : ℕ) : List Char → List Char
  | [] => []
  | c :: cs =>
    match fuel with
    | 0 => c :: cs
    | fuel + 1 =>
      if c.isDigit then
        let r1 := (c :: cs).dropWhile Char.isDigit
        let r2 := match r1 with | '.' :: t => t | _ => r1
        let r3 := (r2.dropWhile Char.isDigit).dropWhile isWs
        let r4 := match r3 with | '%' :: t => t | _ => r3
        labelSub1Go fuel r4
      else c :: labelSub1Go fuel cs

/-- `re.sub(r'\d+\.?\d*\s*%?', '', text)`. -/
def labelSub1 (l : List Char) : List Char := labelSub1Go l.length l

/-- Match one of the fallback filler words with `\b` boundaries
(`\b(in|with|shows|has|is|requests?|growth|increase|decrease)\b`,
`re.IGNORECASE`); returns the remainder after the match. The boundary
before the keyword is checked by the caller (the keyword starts with a
word character). -/
def fillerKwMatch (l : List Char) : Option (List Char) :=
  let kws := ["in", "with", "shows", "has", "is", "requests", "request",
              "growth", "increase", "decrease"]
  match kws.find? (fun k =>
      isPrefixCI k.data l &&
        (match (l.drop k.length).head? with
         | none => true
         | some c => !isWordCh c)) with
  | some k => some (l.drop k.length)
  | none => none

/-- Second substitution of the fallback label: remove word-bounded filler
words. `prevWord` tracks whether the previous character of the original
text is a word character (re.sub matches against the original text). -/
def labelSub2Go (fuel : ℕ) (prevWord : Bool) : List Char → List Char
  | [] => []
  | c :: cs =>
    match fuel with
    | 0 => c :: cs
    | fuel + 1 =>
      if !prevWord then
        match fillerKwMatch (c :: cs) with
        | some rest => labelSub2Go fuel true rest
        | none => c :: labelSub2Go fuel (isWordCh c) cs
      else c :: labelSub2Go fuel (isWordCh c) cs

/-- `re.sub(r'\b(in|with|shows|has|is|requests?|growth|increase|decrease)\b',
'', label, flags=re.IGNORECASE)`. -/
def labelSub2 (l : List Char) : List Char := labelSub2Go l.length false l

/-- `MetricParser._generate_label`. Python truthiness: `if parsed.value`
is false both for `None` and for `0.0`. -/
def generateLabel (t : List Char) (value : Option ℚ) (unit : Option String)
    (metricType : String) : String :=
  if metricType = "growth" then
    match value with
    | some v => if v ≠ 0 then fmtFixed1 v true ++ "% Growth" else "Growth Rate"
    | none => "Growth Rate"
  else if metricType = "volume" then
    match value with
    | some v =>
      if v ≠ 0 then
        toString (intTrunc v) ++ " " ++
          (match unit with
           | some u => if u ≠ "" then u else "Items"
           | none => "Items")
      else "Volume"
    | none => "Volume"
  else if metricType = "percentage" then
    match value with
    | some v => if v ≠ 0 then fmtFixed1 v false ++ "%" else "Percentage"
    | none => "Percentage"
  else
    let l3 := pyTitleGo false (pyStripL (labelSub2 (labelSub1 t)))
    if l3.isEmpty then "Metric" else String.mk l3

/-- `ParsedMetric`: structured representation of a metric. -/
structure ParsedMetric where
  original_text : String
  value : Option ℚ
  unit : Option String
  category : Option String
  metric_type : String
  trend : Option String
  label : String
  deriving Repr, DecidableEq

/-- `MetricParser.parse`: parse a metric string into structured data. -/
def parse (metric_string : String) : ParsedMetric :=
  let t := pyStrip metric_string
  let vu := extractValueAndUnit t.data
  let mt := determineType t.data
  { original_text := t
    value := vu.1
    unit := vu.2
    category := extractCategory t.data
    metric_type := mt
    trend := determineTrend t.data
    label := generateLabel t.data vu.1 vu.2 mt }

/-! ## Float-overflow refinement of the parser

CPython's `float()` on a decimal string rounds to the nearest IEEE-754
binary64 value and saturates to a signed infinity from magnitude
`2^1024 - 2^970` upward (it raises no exception itself), and `int()` of
an infinite float raises
`OverflowError: cannot convert float infinity to integer`.  The
refinement below represents the result of `float()` on a numeral capture
as either an exact finite rational or a signed infinity, and propagates
the one exception `parse` can raise: `int(parsed.value)` in the volume
branch of `_generate_label`. -/

/-- A CPython float produced by `float()` on a numeral capture. -/
inductive PFloat where
  | fin (q : ℚ)
  | inf (pos : Bool)
  deriving Repr, DecidableEq

/-- The magnitude from which `float()` on a decimal string returns
infinity (the IEEE-754 binary64 round-to-nearest overflow threshold). -/
def overflowThreshold : ℚ := 2 ^ 1024 - 2 ^ 970

/-- `float()` on a capture, saturating to a signed infinity. -/
def pyFloatF (g : List Char) : PFloat :=
  if overflowThreshold ≤ pyFloatSigned [] (signSplit g).2 then
    PFloat.inf ((signSplit g).1 ≠ ['-'])
  else PFloat.fin (pyFloatSigned (signSplit g).1 (signSplit g).2)

/-- `_extract_value_and_unit` over the saturating float model (the
pattern ladder is the same; only the conversion of captures differs). -/
def extractValueAndUnitF (t : List Char) : Option PFloat × Option String :=
  match searchWith percMatchAt t with
  | some g => (some (pyFloatF g), some "%")
  | none =>
  match searchWith growthPercMatchAt t with
  | some g => (some (pyFloatF g), some "%")
  | none =>
  match searchWith requestsMatchAt t with
  | some g => (some (pyFloatF g), some "requests")
  | none =>
  match searchWith increaseMatchAt t with
  | some g =>
    (some (pyFloatF g),
      some (if containsSub (lowerL t) "request".data then "requests" else "units"))
  | none =>
  match searchWith countMatchAt t with
  | some g => (some (pyFloatF g), some "units")
  | none =>
  match searchWith numberMatchAt t with
  | some g => (some (pyFloatF g), none)
  | none => (none, none)

/-- Python truthiness of a float: `inf` is truthy, `0.0` is not. -/
def PFloat.truthy : PFloat → Bool
  | .fin q => q ≠ 0
  | .inf _ => true

/-- `f"{v:+.1f}"` over the float model (`f"{inf:+.1f}"` is `"+inf"`). -/
def pfFmtSigned1 : PFloat → String
  | .fin q => fmtFixed1 q true
  | .inf pos => if pos then "+inf" else "-inf"

/-- `f"{v:.1f}"` over the float model (`f"{inf:.1f}"` is `"inf"`). -/
def pfFmt1 : PFloat → String
  | .fin q => fmtFixed1 q false
  | .inf pos => if pos then "inf" else "-inf"

/-- The message of CPython's `int(inf)` exception. -/
def overflowMsg : String := "OverflowError: cannot convert float infinity to integer"

/-- `_generate_label` over the float model: the volume branch applies
`int()` to a truthy value, which raises on an infinite float; every other
branch formats infinities without error. -/
def generateLabelF (t : List Char) (value : Option PFloat) (unit : Option String)
    (metricType : String) : Except String String :=
  if metricType = "growth" then
    match value with
    | some v =>
      if v.truthy then .ok (pfFmtSigned1 v ++ "% Growth") else .ok "Growth Rate"
    | none => .ok "Growth Rate"
  else if metricType = "volume" then
    match value with
    | some (.fin q) =>
      if q ≠ 0 then
        .ok (toString (intTrunc q) ++ " " ++
          (match unit with
           | some u => if u ≠ "" then u else "Items"
           | none => "Items"))
      else .ok "Volume"
    | some (.inf _) => .error overflowMsg
    | none => .ok "Volume"
  else if metricType = "percentage" then
    match value with
    | some v => if v.truthy then .ok (pfFmt1 v ++ "%") else .ok "Percentage"
    | none => .ok "Percentage"
  else
    let l3 := pyTitleGo false (pyStripL (labelSub2 (labelSub1 t)))
    .ok (if l3.isEmpty then "Metric" else String.mk l3)

/-- `ParsedMetric` over the float model. -/
structure ParsedMetricF where
  original_text : String
  value : Option PFloat
  unit : Option String
  category : Option String
  metric_type : String
  trend : Option String
  label : String
  deriving Repr, DecidableEq

/-- `MetricParser.parse` over the float model: the parsed record, or the
`OverflowError` escaping from `_generate_label`. -/
def parseChecked (metric_string : String) : Except String ParsedMetricF :=
  let t := pyStrip metric_string
  let vu := extractValueAndUnitF t.data
  let mt := determineType t.data
  (generateLabelF t.data vu.1 vu.2 mt).map (fun label =>
    { original_text := t
      value := vu.1
      unit := vu.2
      category := extractCategory t.data
      metric_type := mt
      trend := determineTrend t.data
      label := label })

/-- The 309-nines numeral, whose `float()` image is infinite. -/
def overflowNumeral : List Char := List.replicate 309 '9'

/-- The metric string `"99…9 requests"` (309 nines) on which `parse`
raises `OverflowError`. -/
def overflowMetricInput : String := String.mk overflowNumeral ++ " requests"

/-! ## Shapes used to state the percentage-pattern claim -/

/-- The per-category bundle
`{'growth': ..., 'increase': ..., 'recent_volume': ..., 'original_value': ...}`;
every dictionary is initialised with `original_value = None`. -/
structure CategoryMetricData where
  growth : Option ℚ
  increase : Option ℚ
  recent_volume : Option ℚ
  original_value : Option ℚ
  deriving Repr, DecidableEq

/-- The body of the `for category, metrics_data in category_metrics.items()`
loop: derive `original_value` (and, in the third — dead — branch, `growth`)
from the fields that are present. -/
def calcOriginalValue (d : CategoryMetricData) : CategoryMetricData :=
  match d.recent_volume, d.increase with
  | some rv, some inc => { d with original_value := some (rv - inc) }
  | _, _ =>
    match d.recent_volume, d.growth with
    | some rv, some g =>
      if g ≠ 0 then { d with original_value := some (rv / (1 + g / 100)) }
      else { d with original_value := some rv }
    | _, _ =>
      match d.increase, d.original_value, d.growth with
      | some inc, some ov, none =>
        if ov > 0 then { d with growth := some (inc / ov * 100) } else d
      | _, _, _ =>
        match d.increase, d.growth, d.original_value with
        | some inc, some g, none =>
          if g ≠ 0 then { d with original_value := some (inc / (g / 100)) }
          else { d with original_value := some 0 }
        | _, _, _ => d

/-- The computation of `original_value` exactly as the claim words it
(spec §4.5): (a) `recent_volume − increase`; else (b)
`recent_volume / (1 + growth/100)` guarding `growth == 0`; else (c)
`increase / (growth/100)` guarding `growth == 0`; else absent. -/
def claimedOriginalValue (g inc rv : Option ℚ) : Option ℚ :=
  match rv, inc, g with
  | some rvv, some iv, _ => some (rvv - iv)
  | some rvv, none, some gv => some (if gv = 0 then rvv else rvv / (1 + gv / 100))
  | none, some iv, some gv => some (if gv = 0 then 0 else iv / (gv / 100))
  | _, _, _ => none

/-! ## DualBarChartFlowable (`report_generator.py`, lines 153-273)

The drawing routine is a pure geometry computation; the record below holds
every geometric quantity that `draw` computes before issuing paint calls. -/

/-- Geometry computed by `DualBarChartFlowable.draw`. -/
structure DualBarGeometry where
  newValue : Option ℚ
  labelText : String
  barStartX : ℚ
  barYOriginal : ℚ
  barYIncrease : ℚ
  barHeight : ℚ
  barMaxWidth : ℚ
  maxValueForScaling : ℚ
  originalBarWidth : ℚ
  increaseBarWidth : ℚ
  originalTextX : Option ℚ
  increaseColor : String
  increaseTextX : Option ℚ
  deriving Repr

/-- `DualBarChartFlowable.draw`: `new_value = original * (1 + pct/100)`;
both bars are scaled against
`max_value_for_scaling = max(max_original_value, |new_value|)` and clamped
to the bar area. -/
def dualBarDraw (label : String) (original_value percent_increase : Option ℚ)
    (max_original_value : ℚ) (width height : ℚ) : DualBarGeometry :=
  let new_value : Option ℚ :=
    match original_value, percent_increase with
    | some ov, some pct => some (ov * (1 + pct / 100))
    | _, _ => none
  let label_text := if 35 < label.length then pyTakeStr label 35 else label
  let bar_start_x : ℚ := 110
  let bar_y_original := height - 26
  let bar_y_increase := height - 40
  let bar_height : ℚ := 8
  let bar_max_width := width - 180
  let max_value_for_scaling :=
    match new_value, original_value with
    | some nv, some _ => max max_original_value |nv|
    | _, _ => max_original_value
  let original_bar_width :=
    match original_value with
    | some ov =>
      if max_value_for_scaling > 0 then
        min ((|ov| / max_value_for_scaling) * bar_max_width) bar_max_width
      else 0
    | none => 0
  let increase_bar_width :=
    match new_value with
    | some nv =>
      if max_value_for_scaling > 0 then
        min ((|nv| / max_value_for_scaling) * bar_max_width) bar_max_width
      else 0
    | none => 0
  let original_text_x : Option ℚ :=
    match original_value with
    | some _ =>
      some (if original_bar_width > bar_max_width - 50
        then bar_start_x + original_bar_width + 8
        else bar_start_x + bar_max_width + 8)
    | none => none
  let increase_color :=
    match percent_increase with
    | some pct =>
      if pct ≠ 0 ∧ pct > 0 then "#10b981"
      else if pct ≠ 0 ∧ pct < 0 then "#ef4444"
      else "#6b7280"
    | none => "#6b7280"
  let increase_text_x : Option ℚ :=
    match percent_increase, new_value with
    | some _, some _ =>
      some (if increase_bar_width > bar_max_width - 50
        then bar_start_x + increase_bar_width + 8
        else bar_start_x + bar_max_width + 8)
    | _, _ => none
  { newValue := new_value
    labelText := label_text
    barStartX := bar_start_x
    barYOriginal := bar_y_original
    barYIncrease := bar_y_increase
    barHeight := bar_height
    barMaxWidth := bar_max_width
    maxValueForScaling := max_value_for_scaling
    originalBarWidth := original_bar_width
    increaseBarWidth := increase_bar_width
    originalTextX := original_text_x
    increaseColor := increase_color
    increaseTextX := increase_text_x }

/-! ## HorizontalBarChartFlowable (`report_generator.py`, lines 307-435)

`draw` is modelled as a pure function from the flowable's fields (plus the
renderer's `stringWidth` collaborator `sw`) to the geometry it paints: the
bar rectangles in draw order, the wrapped label lines with their
positions, and the final position of the value text. -/

/-- Python `s[:k]` for a possibly negative bound. -/
def pySliceTo (s : String) (k : ℤ) : String :=
  if 0 ≤ k then pyTakeStr s k.toNat
  else pyTakeStr s ((s.data.length : ℤ) + k).toNat

/-- `HorizontalBarChartFlowable._wrap_text`: accumulate words into lines
whose rendered width stays within `maxWidth`. -/
def wrapTextLoop (sw : String → String → ℚ → ℚ) (font : String) (size maxWidth : ℚ) :
    List String → List String → List String → ℚ → List String
  | [], lines, current, _ =>
    if current.isEmpty then lines else lines ++ [String.intercalate " " current]
  | w :: ws, lines, current, curW =>
    let ww := sw (w ++ " ") font size
    if curW + ww ≤ maxWidth then wrapTextLoop sw font size maxWidth ws lines (current ++ [w]) (curW + ww)
    else
      let lines2 := if current.isEmpty then lines else lines ++ [String.intercalate " " current]
      wrapTextLoop sw font size maxWidth ws lines2 [w] ww

/-- `_wrap_text` with its fallback truncation `text[:int(max_width / 5)]`. -/
def wrapText (sw : String → String → ℚ → ℚ) (text : String) (maxWidth : ℚ)
    (font : String) (size : ℚ) : List String :=
  let lines := wrapTextLoop sw font size maxWidth (pySplitWs text) [] [] 0
  if lines.isEmpty then [pySliceTo text (intTrunc (maxWidth / 5))] else lines

/-- The formatted value text of a horizontal bar (`draw`, lines 323-338;
callers always pass a numeric value). -/
def hbarValueText (value : ℚ) (unit : Option String) : String :=
  (if unit = some "%" then fmtFixed1 value true ++ "%"
   else if |value| < 1 then fmtFixed2Signed value
   else if |value| < 100 then fmtFixed1 value true
   else fmtComma0 value) ++
  (match unit with
   | some u => if u ≠ "" ∧ u ≠ "%" then " " ++ u else ""
   | none => "")

/-- `bar_area_x = width / 5 + 5` (label column plus gap). -/
def hbarBarAreaX (width : ℚ) : ℚ := width / 5 + 5

/-- `bar_area_width = width - bar_area_x - (value_width + 10)`. -/
def hbarBarAreaWidth (width vw : ℚ) : ℚ := width - hbarBarAreaX width - (vw + 10)

/-- `bar_width = |value| / max_value * bar_area_width` (unclamped). -/
def hbarBarWidth (value max_value width vw : ℚ) : ℚ :=
  if max_value > 0 then (|value| / max_value) * hbarBarAreaWidth width vw else 0

/-- `max_bar_width = width - bar_area_x - value_area_width - 5` (the bound
used by the overflow fallback). -/
def hbarMaxBarWidth (width vw : ℚ) : ℚ := width - hbarBarAreaX width - (vw + 10) - 5

/-- Geometry painted by `HorizontalBarChartFlowable.draw`. -/
structure HBarDraw where
  valueText : String
  valueWidth : ℚ
  labelLines : List String
  labelDraws : List (ℚ × ℚ × String)
  barRects : List (ℚ × ℚ × ℚ × ℚ)
  finalBarWidth : ℚ
  valueX : ℚ
  valueY : ℚ
  deriving Repr

/-- `HorizontalBarChartFlowable.draw`. The bar rectangle is painted with
the unclamped width first; only if the value text would overflow the page
is the bar width reduced and the (smaller) bar painted again on top. -/
def horizontalBarDraw (sw : String → String → ℚ → ℚ) (label : String) (value : ℚ)
    (max_value width height : ℚ) (unit : Option String) : HBarDraw :=
  let value_text := hbarValueText value unit
  let value_width := sw value_text "Times-Bold" 9
  let text_area_width := width / 5
  let bar_area_x := hbarBarAreaX width
  let bar_width := hbarBarWidth value max_value width value_width
  let bar_y : ℚ := 4
  let bar_height := height - 8
  let bar_center_y := bar_y + bar_height / 2
  let label_lines := wrapText sw label (text_area_width - 5) "Times-Roman" 9
  let line_height : ℚ := 11
  let total_text_height := (label_lines.length : ℚ) * line_height
  let label_start_y := bar_center_y - total_text_height / 2
  let label_draws := label_lines.enum.map (fun p =>
    (text_area_width - sw p.2 "Times-Roman" 9 - 2,
     label_start_y + ((label_lines.length : ℚ) - (p.1 : ℚ) - 1) * line_height, p.2))
  let rects0 := if bar_width > 0 then [(bar_area_x, bar_y, bar_width, bar_height)] else []
  let adj : List (ℚ × ℚ × ℚ × ℚ) × ℚ × ℚ :=
    if bar_area_x + bar_width + 5 + value_width > width - 5 then
      if hbarMaxBarWidth width value_width > 0 then
        let bw := min bar_width (hbarMaxBarWidth width value_width)
        (rects0 ++ [(bar_area_x, bar_y, bw, bar_height)], bw, bar_area_x + bw + 5)
      else (rects0, bar_width, bar_area_x + bar_width + 5)
    else (rects0, bar_width, bar_area_x + bar_width + 5)
  { valueText := value_text
    valueWidth := value_width
    labelLines := label_lines
    labelDraws := label_draws
    barRects := adj.1
    finalBarWidth := adj.2.1
    valueX := adj.2.2
    valueY := bar_center_y - 9 / 2 }

/-- A concrete `stringWidth` model for instantiating the horizontal-bar
theorem: every string is 25 units wide. -/
def constWidth25 : String → String → ℚ → ℚ := fun _ _ _ => 25

/-! ## Tabular data model (pandas data frames)

A dataset is a list of named, typed columns plus a list of rows of cell
values. `int64`/`float64` columns are the numeric ones. -/

/-- A cell value. -/
inductive PyVal where
  | intV (n : ℤ)
  | floatV (q : ℚ)
  | strV (s : String)
  | naV
  deriving Repr, DecidableEq

/-- A column dtype. -/
inductive Dtype where
  | int64
  | float64
  | object
  deriving Repr, DecidableEq

/-- `df[col].dtype in ['int64', 'float64']`. -/
def Dtype.isNumeric : Dtype → Bool
  | .int64 => true
  | .float64 => true
  | .object => false

/-- A pandas data frame. -/
structure PyTable where
  cols : List (String × Dtype)
  rows : List (List PyVal)
  deriving Repr

/-- `df.columns`. -/
def PyTable.colNames (t : PyTable) : List String := t.cols.map (·.1)

/-- pandas `df.empty`: true when either axis has length zero. -/
def PyTable.isEmptyDf (t : PyTable) : Bool := t.rows.isEmpty || t.cols.isEmpty

/-- `pd.notna(val)`. -/
def pdNotna : PyVal → Bool
  | .naV => false
  | _ => true

/-- `isinstance(val, (int, float))`. -/
def pyValIsNumber : PyVal → Bool
  | .intV _ => true
  | .floatV _ => true
  | _ => false

/-- The numeric value of a cell (the generators only read it behind
`pd.notna`/dtype checks; non-numeric cells never reach it in the data this
program consumes). -/
def ratOfVal : PyVal → ℚ
  | .intV n => (n : ℚ)
  | .floatV q => q
  | _ => 0

/-- Python `int(cell)` on a numeric cell. -/
def intOfVal : PyVal → ℤ
  | .intV n => n
  | .floatV q => intTrunc q
  | _ => 0

/-- Fractional digits of a non-negative rational, up to `fuel` places
(used by `str()` on floats; every float in this repository's datasets has
a short terminating decimal expansion). -/
def fracDigitsGo : ℕ → ℚ → List Char
  | 0, _ => []
  | n + 1, f =>
    if f = 0 then []
    else
      Char.ofNat (48 + (⌊f * 10⌋).toNat) :: fracDigitsGo n (f * 10 - ⌊f * 10⌋)

/-- Python `str()` of a float (exact for terminating expansions of at most
ten digits). -/
def pyFloatRepr (q : ℚ) : String :=
  (if q < 0 then "-" else "") ++ toString (⌊|q|⌋).toNat ++ "." ++
    (let ds := fracDigitsGo 10 (|q| - ⌊|q|⌋)
     if ds.isEmpty then "0" else String.mk ds)

/-- Python `str()` of a cell value. -/
def pyStrOfVal : PyVal → String
  | .intV n => toString n
  | .floatV q => pyFloatRepr q
  | .strV s => s
  | .naV => "nan"

/-- Column access `df[name]` as an index; a missing column raises
`KeyError`. -/
def getColIdx (t : PyTable) (name : String) : Except String ℕ :=
  match t.cols.findIdx? (fun c => c.1 = name) with
  | some i => .ok i
  | none => .error ("KeyError: " ++ name)

/-- Column index with default 0 (used only for columns taken from
`df.columns`, which always resolve). -/
def colIdxD (t : PyTable) (name : String) : ℕ :=
  (t.cols.findIdx? (fun c => c.1 = name)).getD 0

/-- The dtype of a named column. -/
def colDtype (t : PyTable) (name : String) : Dtype :=
  ((t.cols.find? (fun c => c.1 = name)).getD ("", .object)).2

/-- Cell of a row at a column index. -/
def rowCell (r : List PyVal) (i : ℕ) : PyVal := r.getD i .naV

/-- Names of the numeric columns, in column order. -/
def numericCols (t : PyTable) : List String :=
  (t.cols.filter (fun c => c.2.isNumeric)).map (·.1)

/-- Insert into a descending-sorted list after all entries with a key not
below the new one (stable descending insertion). -/
def insertDescBy {α : Type} (key : α → ℚ) (x : α) : List α → List α
  | [] => [x]
  | y :: ys => if key y < key x then x :: y :: ys else y :: insertDescBy key x ys

/-- Stable sort, descending by a rational key. -/
def sortDescBy {α : Type} (key : α → ℚ) (l : List α) : List α :=
  l.foldr (insertDescBy key) []

/-- pandas `df.sort_values(col, ascending=False)`: descending by the
column value with NA rows last (modelled as a stable sort; the pandas
default quicksort leaves tie order unspecified). -/
def sortRowsDesc (t : PyTable) (i : ℕ) : List (List PyVal) :=
  let notna := t.rows.filter (fun r => pdNotna (rowCell r i))
  let nas := t.rows.filter (fun r => !pdNotna (rowCell r i))
  sortDescBy (fun r => ratOfVal (rowCell r i)) notna ++ nas

/-- Stable descending insertion for a lexicographic two-part key. -/
def insertDescBy2 {α : Type} (key : α → ℚ × ℚ) (x : α) : List α → List α
  | [] => [x]
  | y :: ys =>
    if (key y).1 < (key x).1 ∨ ((key y).1 = (key x).1 ∧ (key y).2 < (key x).2) then
      x :: y :: ys
    else y :: insertDescBy2 key x ys

/-- `df.sort_values([c1, c2], ascending=[False, False])` (the backlog
datasets carry no NA sort keys). -/
def sortRowsDesc2 (t : PyTable) (i j : ℕ) : List (List PyVal) :=
  t.rows.foldr (insertDescBy2 (fun r => (ratOfVal (rowCell r i), ratOfVal (rowCell r j)))) []

/-- `display_df[col].max() if not display_df.empty else 1` (pandas `max`
skips NA; an all-NA column would be NaN, which does not occur here). -/
def displayColMax (display : List (List PyVal)) (i : ℕ) : ℚ :=
  if display.isEmpty then 1
  else
    match display.filterMap
        (fun r => if pdNotna (rowCell r i) then some (ratOfVal (rowCell r i)) else none) with
    | [] => 0
    | x :: xs => xs.foldl max x

/-! ## Document model

The ordered items a generator emits (text paragraphs, spacers, custom
drawables, layout tables); styles (fonts, colors of table styling) are
collaborator configuration and are not part of the geometry model, except
for bar colors, which the claims mention. -/

/-- A document story item. -/
inductive StoryItem where
  | paragraph (text style : String)
  | spacer (w h : ℚ)
  | textCell (s : String)
  | barChart (label : String) (value maxValue : ℚ) (width : ℤ) (height : ℚ)
      (color : String) (unit : Option String)
  | tableBlock (rows : List (List StoryItem)) (colWidths : List ℚ)
  | borderedBarContainer (chartsData : List (String × ℤ)) (width : ℤ)
      (height padding : ℚ) (maxValue : ℤ)
  | keepTogether (items : List StoryItem)

/-! ## ChartTypeClassifier (`ReportGenerator._detect_chart_type`) -/

/-- The chart types the classifier can produce. -/
inductive ChartType where
  | line
  | bar
  | scatter
  | pie
  | heatmap
  | table
  deriving Repr, DecidableEq

/-- Time/date column-name indicators. -/
def timeIndicators : List String := ["time", "date", "period", "month", "year", "week"]

/-- Scatter column-name indicators. -/
def scatterIndicators : List String :=
  ["time_to_close", "request_count", "bubble_size", "open_count"]

/-- Geographic column-name indicators. -/
def geoIndicators : List String := ["district", "location", "region", "area", "electoral"]

/-- Category column-name indicators. -/
def categoryIndicators : List String := ["category", "group", "name", "label", "service level"]

/-- `_detect_chart_type`: the priority ladder. The ranking and backlog
checks test the **original** column names for exact equality
(`'rank' in df.columns`), while the later rules match indicators as
substrings of the **lower-cased** names. -/
def detectChartType (df : PyTable) : ChartType :=
  if df.isEmptyDf || df.cols.isEmpty then .table
  else
    let columns := df.colNames.map pyLower
    if "ranking_type" ∈ df.colNames ∨ "rank" ∈ df.colNames then .bar
    else if "unresolved_count" ∈ df.colNames then .bar
    else
      let has_time_col := columns.any (fun col => timeIndicators.any (fun ind => strContains col ind))
      let numeric_cols := numericCols df
      if has_time_col ∧ numeric_cols.length > 2 then .line
      else if scatterIndicators.any
          (fun ind => strContains (String.intercalate " " columns) ind) ∧
          2 ≤ numeric_cols.length then .scatter
      else if df.cols.length = 2 ∧
          (((df.cols.getD 0 ("", .object)).2.isNumeric ∧
              ¬(df.cols.getD 1 ("", .object)).2.isNumeric) ∨
           (¬(df.cols.getD 0 ("", .object)).2.isNumeric ∧
              (df.cols.getD 1 ("", .object)).2.isNumeric)) then .pie
      else if geoIndicators.any
          (fun ind => strContains (String.intercalate " " columns) ind) ∧
          2 ≤ numeric_cols.length then .heatmap
      else
        let has_category := columns.any
          (fun col => categoryIndicators.any (fun ind => strContains col ind))
        if has_category ∧ 1 ≤ numeric_cols.length then
          if numeric_cols.length = 1 then .bar
          else if ¬has_time_col then .bar
          else .table
        else .table

/-- The same ladder with the ranking rule removed (used to state that a
table whose ranking column is not spelled exactly `rank`/`ranking_type`
falls through to the later rules). -/
def detectChartTypeSansRanking (df : PyTable) : ChartType :=
  if df.isEmptyDf || df.cols.isEmpty then .table
  else
    let columns := df.colNames.map pyLower
    if "unresolved_count" ∈ df.colNames then .bar
    else
      let has_time_col := columns.any (fun col => timeIndicators.any (fun ind => strContains col ind))
      let numeric_cols := numericCols df
      if has_time_col ∧ numeric_cols.length > 2 then .line
      else if scatterIndicators.any
          (fun ind => strContains (String.intercalate " " columns) ind) ∧
          2 ≤ numeric_cols.length then .scatter
      else if df.cols.length = 2 ∧
          (((df.cols.getD 0 ("", .object)).2.isNumeric ∧
              ¬(df.cols.getD 1 ("", .object)).2.isNumeric) ∨
           (¬(df.cols.getD 0 ("", .object)).2.isNumeric ∧
              (df.cols.getD 1 ("", .object)).2.isNumeric)) then .pie
      else if geoIndicators.any
          (fun ind => strContains (String.intercalate " " columns) ind) ∧
          2 ≤ numeric_cols.length then .heatmap
      else
        let has_category := columns.any
          (fun col => categoryIndicators.any (fun ind => strContains col ind))
        if has_category ∧ 1 ≤ numeric_cols.length then
          if numeric_cols.length = 1 then .bar
          else if ¬has_time_col then .bar
          else .table
        else .table

/-! ## Visualization strategies (`_generate_*` methods) -/

/-- `_generate_top10_volume_chart`: ranked table for top-ten volume data. -/
def generateTop10VolumeChart (df : PyTable) (docWidth : ℚ) :
    Except String (List StoryItem) := do
  let rt ← getColIdx df "ranking_type"
  let volumeRows := (df.rows.filter
    (fun r => rowCell r rt = .strV "Volume (Last 30 Days)")).take 10
  if volumeRows.isEmpty then return []
  let rankI ← getColIdx df "rank"
  let catI ← getColIdx df "category"
  let pmI ← getColIdx df "primary_metric"
  let smI ← getColIdx df "secondary_metric"
  let header := [StoryItem.textCell "Rank", .textCell "Category", .textCell "Volume",
                 .textCell "% of Total"]
  let body := volumeRows.map (fun r =>
    let rank := intOfVal (rowCell r rankI)
    let category := pyStrOfVal (rowCell r catI)
    let volume := if pdNotna (rowCell r pmI) then intOfVal (rowCell r pmI) else 0
    let pct := if pdNotna (rowCell r smI)
      then fmtFixed1 (ratOfVal (rowCell r smI)) false ++ "%" else "N/A"
    [StoryItem.textCell (toString rank), .textCell category,
     .textCell (fmtCommaInt volume), .textCell pct])
  return [.tableBlock (header :: body)
    [docWidth * (8 / 100), docWidth * (52 / 100), docWidth * (20 / 100), docWidth * (20 / 100)]]

/-- `_generate_line_chart`: time-series data as a tabular block of the
most recent 15 rows of up to 5 numeric columns. -/
def generateLineChart (df : PyTable) (docWidth : ℚ) : List StoryItem :=
  if df.isEmptyDf then []
  else
    let time_col :=
      match df.colNames.find?
          (fun col => timeIndicators.any (fun ind => strContains (pyLower col) ind)) with
      | some c => c
      | none => df.colNames.headD ""
    let numeric_cols := (df.cols.filter (fun c => c.1 ≠ time_col ∧ c.2.isNumeric)).map (·.1)
    if numeric_cols.isEmpty then []
    else
      let numeric_cols := numeric_cols.take 5
      let header := StoryItem.textCell time_col ::
        numeric_cols.map (fun c => StoryItem.textCell (pyTakeStr c 25))
      let displayRows := df.rows.drop (df.rows.length - 15)
      let body := displayRows.map (fun r =>
        StoryItem.textCell (pyTakeStr (pyStrOfVal (rowCell r (colIdxD df time_col))) 15) ::
          numeric_cols.map (fun c =>
            let v := rowCell r (colIdxD df c)
            if pdNotna v then
              if pyValIsNumber v then StoryItem.textCell (fmtComma0 (ratOfVal v))
              else StoryItem.textCell (pyTakeStr (pyStrOfVal v) 20)
            else StoryItem.textCell "N/A"))
      [.tableBlock (header :: body)
        (docWidth * (2 / 10) ::
          List.replicate numeric_cols.length
            (docWidth * (8 / 10) / (numeric_cols.length : ℚ)))]

/-- `_generate_scatter_chart`: scatter data as a tabular block of up to 20
rows of the selected x/y/size columns plus an optional label column. -/
def generateScatterChart (df : PyTable) (docWidth : ℚ) : List StoryItem :=
  if df.isEmptyDf then []
  else
    let sel := df.colNames.foldl
      (fun (acc : Option String × Option String × Option String) col =>
        let cl := pyLower col
        if strContains cl "time_to_close" ∨ strContains cl "x" then
          (some col, acc.2.1, acc.2.2)
        else if strContains cl "request_count" ∨ strContains cl "volume" ∨
            strContains cl "y" then (acc.1, some col, acc.2.2)
        else if strContains cl "bubble_size" ∨ strContains cl "size" ∨
            strContains cl "open_count" then (acc.1, acc.2.1, some col)
        else acc)
      (none, none, none)
    let numeric := numericCols df
    let x_col := match sel.1 with | some c => some c | none => numeric.head?
    let y_col := match sel.2.1 with | some c => some c | none => numeric.get? 1
    let size_col := match sel.2.2 with | some c => some c | none => numeric.get? 2
    let label_col := df.colNames.find? (fun col =>
      (some col ≠ x_col ∧ some col ≠ y_col ∧ some col ≠ size_col) ∧
        (colDtype df col = Dtype.object ∨ strContains (pyLower col) "group" ∨
          strContains (pyLower col) "category" ∨ strContains (pyLower col) "name"))
    match x_col, y_col with
    | some xc, some yc =>
      let headers :=
        (match label_col with
         | some lc => [StoryItem.textCell (pyTakeStr lc 25)]
         | none => []) ++
        [StoryItem.textCell (pyTakeStr xc 25), .textCell (pyTakeStr yc 25)] ++
        (match size_col with
         | some sc => [StoryItem.textCell (pyTakeStr sc 25)]
         | none => [])
      let body := (df.rows.take 20).map (fun r =>
        (match label_col with
         | some lc => [StoryItem.textCell (pyTakeStr (pyStrOfVal (rowCell r (colIdxD df lc))) 30)]
         | none => []) ++
        (let xv := if pdNotna (rowCell r (colIdxD df xc)) then rowCell r (colIdxD df xc)
          else .intV 0
         let yv := if pdNotna (rowCell r (colIdxD df yc)) then rowCell r (colIdxD df yc)
          else .intV 0
         [(if pyValIsNumber xv then StoryItem.textCell (fmtComma1 (ratOfVal xv))
           else StoryItem.textCell (pyTakeStr (pyStrOfVal xv) 15)),
          (if pyValIsNumber yv then StoryItem.textCell (fmtComma0 (ratOfVal yv))
           else StoryItem.textCell (pyTakeStr (pyStrOfVal yv) 15))]) ++
        (match size_col with
         | some sc =>
           let sv := if pdNotna (rowCell r (colIdxD df sc)) then rowCell r (colIdxD df sc)
             else .intV 0
           [(if pyValIsNumber sv then StoryItem.textCell (fmtComma0 (ratOfVal sv))
             else StoryItem.textCell (pyTakeStr (pyStrOfVal sv) 15))]
         | none => []))
      let num_cols := headers.length
      let widths :=
        match label_col with
        | some _ =>
          docWidth * (4 / 10) ::
            List.replicate (num_cols - 1) (docWidth * (6 / 10) / ((num_cols : ℚ) - 1))
        | none => List.replicate num_cols (docWidth / (num_cols : ℚ))
      [.tableBlock (headers :: body) widths]
    | _, _ => []

/-- `_generate_pie_chart`: distribution data as side-by-side vertical bars
annotated with percent shares, plus an advisory note. -/
def generatePieChart (df : PyTable) (docWidth : ℚ) : List StoryItem :=
  if df.isEmptyDf ∨ df.cols.length < 2 then []
  else
    let col1n := (df.cols.getD 0 ("", .object)).2.isNumeric
    let col2n := (df.cols.getD 1 ("", .object)).2.isNumeric
    let p : ℕ × ℕ :=
      if col1n ∧ ¬col2n then (1, 0)
      else if ¬col1n ∧ col2n then (0, 1)
      else (0, 1)
    let name_i := p.1
    let value_i := p.2
    let display := (sortRowsDesc df value_i).take 15
    let max_value := displayColMax display value_i
    let total_value := (display.filterMap (fun r =>
      if pdNotna (rowCell r value_i) then some (ratOfVal (rowCell r value_i)) else none)).foldl
      (· + ·) 0
    let num_bars := display.length
    let charts :=
      if 0 < num_bars then
        let bar_width :=
          if (num_bars : ℚ) * 45 > (intTrunc docWidth : ℚ) * (95 / 100) then
            ((intTrunc docWidth : ℚ) * (95 / 100)) / (num_bars : ℚ)
          else min ((intTrunc docWidth : ℚ) / (num_bars : ℚ)) 45
        let items := display.map (fun r =>
          let name := pyTakeStr (pyStrOfVal (rowCell r name_i)) 20
          let value := if pdNotna (rowCell r value_i) then ratOfVal (rowCell r value_i) else 0
          let pct := if 0 < total_value then value / total_value * 100 else 0
          StoryItem.barChart (name ++ " (" ++ fmtFixed1 pct false ++ "%)") value max_value
            (intTrunc bar_width) 100 "#3b82f6" (some ""))
        [StoryItem.tableBlock [items]
          (List.replicate num_bars ((intTrunc bar_width : ℤ) : ℚ))]
      else []
    charts ++
      [.spacer 1 12,
       .paragraph
         "Note: Distribution data showing proportions. Consider using a pie chart visualization for better visual representation."
         "note"]

/-- `_generate_heatmap_table`: geographic data as a multi-column table
sorted by the first numeric column. -/
def generateHeatmapTable (df : PyTable) (docWidth : ℚ) : List StoryItem :=
  if df.isEmptyDf then []
  else
    let location_col :=
      match df.colNames.find?
          (fun col => geoIndicators.any (fun ind => strContains (pyLower col) ind)) with
      | some c => c
      | none =>
        match df.colNames.find? (fun col => colDtype df col = Dtype.object) with
        | some c => c
        | none => df.colNames.headD ""
    let numeric_cols := (df.cols.filter (fun c => c.1 ≠ location_col ∧ c.2.isNumeric)).map (·.1)
    if numeric_cols.isEmpty then []
    else
      let display := (sortRowsDesc df (colIdxD df (numeric_cols.headD ""))).take 15
      let headers := StoryItem.textCell (pyTakeStr location_col 25) ::
        numeric_cols.map (fun c => StoryItem.textCell (pyTakeStr c 20))
      let body := display.map (fun r =>
        StoryItem.textCell (pyTakeStr (pyStrOfVal (rowCell r (colIdxD df location_col))) 30) ::
          numeric_cols.map (fun c =>
            let v := rowCell r (colIdxD df c)
            if pdNotna v then
              if pyValIsNumber v then StoryItem.textCell (fmtComma1 (ratOfVal v))
              else StoryItem.textCell (pyTakeStr (pyStrOfVal v) 15)
            else StoryItem.textCell "N/A"))
      [.tableBlock (headers :: body)
        (docWidth * (3 / 10) ::
          List.replicate numeric_cols.length
            (docWidth * (7 / 10) / (numeric_cols.length : ℚ)))]

/-- `_generate_backlog_table`: backlog data aggregated by `Service Level 1`
and rendered as horizontal bars inside one bordered container. -/
def generateBacklogTable (df : PyTable) (docWidth : ℚ) :
    Except String (List StoryItem) := do
  let ucI ← getColIdx df "unresolved_count"
  let aaI ← getColIdx df "avg_age_days"
  let sorted := (sortRowsDesc2 df ucI aaI).take 15
  if sorted.isEmpty then return []
  let slI ← getColIdx df "Service Level 1"
  let level1 := sorted.foldl (fun (acc : List (String × ℤ)) r =>
    let l1 := if pdNotna (rowCell r slI) then pyStrOfVal (rowCell r slI) else "Unknown"
    let unres := if pdNotna (rowCell r ucI) then intOfVal (rowCell r ucI) else 0
    match acc.find? (fun q => q.1 = l1) with
    | some _ => acc.map (fun q => if q.1 = l1 then (q.1, q.2 + unres) else q)
    | none => acc ++ [(l1, unres)]) []
  let sortedL1 := (sortDescBy (fun q => ((q.2 : ℚ))) level1).take 15
  let labels := sortedL1.map (·.1)
  let counts := sortedL1.map (·.2)
  if counts.isEmpty then return []
  let max_unresolved := match counts with
    | [] => 100
    | x :: xs => xs.foldl max x
  let num_charts := labels.length
  let total_height := (num_charts : ℚ) * 28 + ((num_charts : ℚ) - 1) * 8 + 4 * 2
  return [.borderedBarContainer (labels.zip counts) (intTrunc docWidth) total_height 4
    max_unresolved]

/-- `_generate_generic_table`: up to 15 rows of all columns verbatim. -/
def generateGenericTable (df : PyTable) (docWidth : ℚ) : List StoryItem :=
  if df.isEmptyDf ∨ df.cols.isEmpty then []
  else
    let header := df.colNames.map (fun c => StoryItem.textCell (pyTakeStr c 25))
    let body := (df.rows.take 15).map (fun r =>
      (List.range df.cols.length).map (fun i =>
        let v := rowCell r i
        if pdNotna v then
          if pyValIsNumber v then StoryItem.textCell (fmtComma1 (ratOfVal v))
          else StoryItem.textCell (pyTakeStr (pyStrOfVal v) 30)
        else StoryItem.textCell "N/A"))
    [.tableBlock (header :: body)
      (List.replicate df.cols.length (docWidth / (df.cols.length : ℚ)))]

/-- `_generate_bar_chart_generic`: category + value data as side-by-side
vertical bar charts. -/
def generateBarChartGeneric (df : PyTable) (docWidth : ℚ) : List StoryItem :=
  if df.isEmptyDf then []
  else
    let category_col0 := df.colNames.find?
      (fun col => categoryIndicators.any (fun ind => strContains (pyLower col) ind))
    let value_col := (numericCols df).head?
    let category_col := match category_col0 with
      | some c => some c
      | none => df.colNames.find?
          (fun col => some col ≠ value_col ∧ colDtype df col = Dtype.object)
    match category_col, value_col with
    | some cat, some val =>
      let vi := colIdxD df val
      let ci := colIdxD df cat
      let display := (sortRowsDesc df vi).take 15
      let max_value := displayColMax display vi
      let num_bars := display.length
      (if 0 < num_bars then
        let bar_width :=
          if (num_bars : ℚ) * 45 > (intTrunc docWidth : ℚ) * (95 / 100) then
            ((intTrunc docWidth : ℚ) * (95 / 100)) / (num_bars : ℚ)
          else min ((intTrunc docWidth : ℚ) / (num_bars : ℚ)) 45
        let items := display.map (fun r =>
          StoryItem.barChart (pyTakeStr (pyStrOfVal (rowCell r ci)) 25)
            (if pdNotna (rowCell r vi) then ratOfVal (rowCell r vi) else 0)
            max_value (intTrunc bar_width) 100 "#3b82f6" (some ""))
        [StoryItem.tableBlock [items]
          (List.replicate num_bars ((intTrunc bar_width : ℤ) : ℚ))]
      else []) ++ [StoryItem.spacer 1 12]
    | _, _ => generateGenericTable df docWidth

/-! ## Product visualization dispatch and the Supporting Data Analysis
section (`_generate_product_visualization` and `generate_pdf`,
lines 2353-2408) -/

/-- `_generate_product_visualization`: load the dataset through the
Tabular Data Source collaborator (`None` signals "not found"), detect the
chart type and dispatch to the matching strategy. -/
def productVisualization (lookup : String → Option PyTable) (product_name : String)
    (docWidth : ℚ) : Except String (List StoryItem) :=
  match lookup product_name with
  | none => .ok []
  | some df =>
    if df.isEmptyDf then .ok []
    else
      match detectChartType df with
      | .line => .ok (generateLineChart df docWidth)
      | .scatter => .ok (generateScatterChart df docWidth)
      | .pie => .ok (generatePieChart df docWidth)
      | .heatmap => .ok (generateHeatmapTable df docWidth)
      | .bar =>
        if "unresolved_count" ∈ df.colNames then generateBacklogTable df docWidth
        else if "ranking_type" ∈ df.colNames then generateTop10VolumeChart df docWidth
        else .ok (generateBarChartGeneric df docWidth)
      | .table => .ok (generateGenericTable df docWidth)

/-- The section title for a product key (lookup table, else
`replace('_',' ').title()` plus `" Analysis"`). -/
def sectionTitleFor (product_name : String) : String :=
  match product_name with
  | "top10_volume_30d" => "Top 10 Categories by Volume (Last 30 Days)"
  | "backlog_ranked_list" => "Backlog Analysis - Urgent Unresolved Items"
  | "frequency_over_time" => "Frequency Over Time - Request Trends"
  | "priority_quadrant" => "Priority Quadrant Analysis"
  | "geographic_hot_spots" => "Geographic Hot Spots Analysis"
  | "time_to_close" => "Time to Close Analysis"
  | "seasonality_heatmap" => "Seasonality Heatmap"
  | "backlog_distribution" => "Backlog Distribution Analysis"
  | _ =>
    let t := pyTitle (pyReplaceUnderscore product_name)
    if strContains (pyLower t) "analysis" then t else t ++ " Analysis"

/-- One entry of the payload's `products` list. -/
structure ProductItem where
  product : String
  why : String

/-- The per-product loop of the Supporting Data Analysis section.
`chartsSection` carries the section heading block that is pinned to the
first qualifying product's content; `firstAdded` tells whether it has been
emitted. -/
def productsSectionGo (lookup : String → Option PyTable) (docWidth : ℚ) :
    List ProductItem → List StoryItem → Bool → Except String (List StoryItem)
  | [], _, _ => .ok []
  | p :: ps, chartsSection, firstAdded =>
    if p.product = "" then productsSectionGo lookup docWidth ps chartsSection firstAdded
    else do
      let viz ← productVisualization lookup p.product docWidth
      let pc := [StoryItem.paragraph (sectionTitleFor p.product) "heading",
                 .spacer 1 12] ++ (if viz.isEmpty then [] else viz ++ [.spacer 1 20])
      if 1 < pc.length then
        if firstAdded = false then do
          let rest ← productsSectionGo lookup docWidth ps chartsSection true
          return StoryItem.keepTogether (chartsSection ++ pc) :: rest
        else do
          let rest ← productsSectionGo lookup docWidth ps chartsSection true
          return StoryItem.keepTogether pc :: rest
      else productsSectionGo lookup docWidth ps chartsSection firstAdded

/-- The Supporting Data Analysis section of `generate_pdf`: nothing when
`products` is empty, otherwise the heading block followed by one
subsection per product. -/
def productsSection (products : List ProductItem) (lookup : String → Option PyTable)
    (docWidth : ℚ) : Except String (List StoryItem) :=
  if products.isEmpty then .ok []
  else
    productsSectionGo lookup docWidth products
      [.spacer 1 20, .paragraph "Supporting Data Analysis" "heading", .spacer 1 12] false

/-! ## Concrete tables and story classifiers used by the claims -/

/-- The column layout `[rank, category, primary_metric]` of the ranking
claim. -/
def rankCatCols : List (String × Dtype) :=
  [("rank", .int64), ("category", .object), ("primary_metric", .int64)]

/-- A non-empty table with columns `[rank, category, primary_metric]`. -/
def rankCatTable : PyTable :=
  ⟨rankCatCols, [[.intV 1, .strV "Parks", .intV 500]]⟩

/-- Does a story start with a layout table whose single row consists
entirely of (at least one) vertical bar-chart flowables — the shape
`_generate_bar_chart_generic` emits? -/
def storyIsBarChartTable : List StoryItem → Bool
  | StoryItem.tableBlock [items] _ :: _ =>
    !items.isEmpty &&
      items.all (fun i =>
        match i with
        | StoryItem.barChart _ _ _ _ _ _ _ => true
        | _ => false)
  | _ => false

/-- Does a flat item list contain the paragraph `s`? -/
def flatHasParagraph (s : String) : List StoryItem → Bool
  | [] => false
  | StoryItem.paragraph t _ :: rest => t = s || flatHasParagraph s rest
  | _ :: rest => flatHasParagraph s rest

/-- Does a story contain the paragraph `s`, at top level or one
`KeepTogether` level deep (where `generate_pdf` places section
headings)? -/
def storyHasParagraph (s : String) (story : List StoryItem) : Bool :=
  story.any (fun i =>
    match i with
    | StoryItem.paragraph t _ => t = s
    | StoryItem.keepTogether items => flatHasParagraph s items
    | _ => false)

end Compass

namespace Compass

/-! ## Supporting lemmas -/

theorem append_ne_empty_of_right {a b : String} (hb : b ≠ "") : a ++ b ≠ "" := by
  intro h
  apply hb
  have hd : a.data ++ b.data = [] := by
    have := congrArg String.data h
    simpa using this
  have hbd : b.data = [] := (List.append_eq_nil.mp hd).2
  cases b with
  | mk l =>
    have hl : l = [] := hbd
    subst hl
    rfl

theorem mk_ne_empty_of_ne_nil {l : List Char} (h : l ≠ []) : String.mk l ≠ "" := by
  intro he
  apply h
  have := congrArg String.data he
  simpa using this

/-- `_generate_label` always produces a non-empty string. -/
theorem generateLabel_ne_empty (t : List Char) (v : Option ℚ) (u : Option String)
    (mt : String) : generateLabel t v u mt ≠ "" := by
  unfold generateLabel
  by_cases h1 : mt = "growth"
  · rw [if_pos h1]
    rcases v with _ | x
    · show "Growth Rate" ≠ ""
      decide
    · show (if x ≠ 0 then fmtFixed1 x true ++ "% Growth" else "Growth Rate") ≠ ""
      by_cases hx : x ≠ 0
      · rw [if_pos hx]
        exact append_ne_empty_of_right (by decide)
      · rw [if_neg hx]
        decide
  rw [if_neg h1]
  by_cases h2 : mt = "volume"
  · rw [if_pos h2]
    rcases v with _ | x
    · show "Volume" ≠ ""
      decide
    · show (if x ≠ 0 then
          toString (intTrunc x) ++ " " ++
            (match u with
             | some uu => if uu ≠ "" then uu else "Items"
             | none => "Items")
          else "Volume") ≠ ""
      by_cases hx : x ≠ 0
      · rw [if_pos hx]
        refine append_ne_empty_of_right ?_
        rcases u with _ | uu
        · show "Items" ≠ ""
          decide
        · show (if uu ≠ "" then uu else "Items") ≠ ""
          by_cases hu : uu ≠ ""
          · rw [if_pos hu]
            exact hu
          · rw [if_neg hu]
            decide
      · rw [if_neg hx]
        decide
  rw [if_neg h2]
  by_cases h3 : mt = "percentage"
  · rw [if_pos h3]
    rcases v with _ | x
    · show "Percentage" ≠ ""
      decide
    · show (if x ≠ 0 then fmtFixed1 x false ++ "%" else "Percentage") ≠ ""
      by_cases hx : x ≠ 0
      · rw [if_pos hx]
        exact append_ne_empty_of_right (by decide)
      · rw [if_neg hx]
        decide
  rw [if_neg h3]
  show (if (pyTitleGo false (pyStripL (labelSub2 (labelSub1 t)))).isEmpty = true
      then "Metric"
      else String.mk (pyTitleGo false (pyStripL (labelSub2 (labelSub1 t))))) ≠ ""
  by_cases he : (pyTitleGo false (pyStripL (labelSub2 (labelSub1 t)))).isEmpty = true
  · rw [if_pos he]
    decide
  · rw [if_neg he]
    apply mk_ne_empty_of_ne_nil
    intro hnil
    apply he
    rw [hnil]
    rfl

end Compass

namespace Compass

/-! ## Claim theorems (MetricParser) -/

/-- **C9 counterexample.** `parse` strips the input before storing it:
on the input `" 5%"` (leading space) the stored `original_text` differs
from the source string. -/
theorem c9_counterexample : (parse " 5%").original_text ≠ " 5%" := by decide

/-- **C9 (amended).** For every input string, `parse(text).original_text`
equals the input with leading and trailing whitespace stripped
(`text.strip()`), not necessarily the source string itself. -/
theorem c9_original_text_is_stripped (s : String) :
    (parse s).original_text = pyStrip s := rfl

/-- **C6 counterexample.** On `"0% growth"` the parsed value is present
(`some 0`) and the metric type is `growth`, yet the label is the literal
`"Growth Rate"`: Python's truthiness test `if parsed.value` treats the
present value `0.0` like an absent one. -/
theorem c6_counterexample :
    (parse "0% growth").metric_type = "growth" ∧
      (parse "0% growth").value = some 0 ∧
      (parse "0% growth").label = "Growth Rate" := by
  have hv : (parse "0% growth").value = some 0 := by
    have h1 : (parse "0% growth").value = some (pyFloat ['0']) := rfl
    have h2 : pyFloat ['0'] = 0 := by
      have e : pyFloat ['0'] = ((0 : ℕ) : ℚ) + ((0 : ℕ) : ℚ) / (10 : ℚ) ^ (0 : ℕ) := rfl
      rw [e]
      norm_num
    rw [h1, h2]
  refine ⟨by decide, hv, ?_⟩
  have hl : (parse "0% growth").label
      = generateLabel (pyStrip "0% growth").data (parse "0% growth").value
          (parse "0% growth").unit (parse "0% growth").metric_type := rfl
  rw [hl, hv]
  have hmt : (parse "0% growth").metric_type = "growth" := by decide
  rw [hmt]
  simp [generateLabel]

/-- **C6 (amended).** For a parsed metric of type `growth`: when the value
is present **and non-zero** the label is the signed one-decimal value
followed by `% Growth`; the label is the literal `"Growth Rate"` when the
value is absent **or zero**. -/
theorem c6_growth_label (s : String) (h : (parse s).metric_type = "growth") :
    (∀ v : ℚ, (parse s).value = some v → v ≠ 0 →
        (parse s).label = fmtFixed1 v true ++ "% Growth") ∧
      ((parse s).value = none ∨ (parse s).value = some 0 →
        (parse s).label = "Growth Rate") := by
  have hl : (parse s).label
      = generateLabel (pyStrip s).data (parse s).value (parse s).unit
          (parse s).metric_type := rfl
  constructor
  · intro v hv hne
    rw [hl, h, hv]
    simp [generateLabel, hne]
  · intro hv
    rcases hv with hv | hv <;> rw [hl, h, hv] <;> simp [generateLabel]

/-- **C6 witness** at the concrete input `"5% growth"`. -/
theorem c6_witness :
    (parse "5% growth").metric_type = "growth" ∧
      (parse "5% growth").label = fmtFixed1 5 true ++ "% Growth" := by
  have hv : (parse "5% growth").value = some 5 := by
    have h1 : (parse "5% growth").value = some (pyFloat ['5']) := rfl
    have h2 : pyFloat ['5'] = 5 := by
      have e : pyFloat ['5'] = ((5 : ℕ) : ℚ) + ((0 : ℕ) : ℚ) / (10 : ℚ) ^ (0 : ℕ) := rfl
      rw [e]
      norm_num
    rw [h1, h2]
  exact ⟨by decide, (c6_growth_label "5% growth" (by decide)).1 5 hv (by norm_num)⟩

/-- `parseChecked` is the label computation mapped over the parsed
record. -/
theorem parseChecked_eq (s : String) :
    parseChecked s
      = (generateLabelF (pyStrip s).data (extractValueAndUnitF (pyStrip s).data).1
          (extractValueAndUnitF (pyStrip s).data).2
          (determineType (pyStrip s).data)).map (fun label =>
            ({ original_text := pyStrip s
               value := (extractValueAndUnitF (pyStrip s).data).1
               unit := (extractValueAndUnitF (pyStrip s).data).2
               category := extractCategory (pyStrip s).data
               metric_type := determineType (pyStrip s).data
               trend := determineTrend (pyStrip s).data
               label := label } : ParsedMetricF)) := rfl

/-- Every successful label of the float-aware `_generate_label` is a
non-empty string, and its only possible error is the `int(inf)` overflow
message. -/
theorem generateLabelF_spec (t : List Char) (v : Option PFloat) (u : Option String)
    (mt : String) :
    (match generateLabelF t v u mt with
     | .ok l => l ≠ ""
     | .error e => e = overflowMsg) := by
  unfold generateLabelF
  by_cases h1 : mt = "growth"
  · rw [if_pos h1]
    rcases v with _ | x
    · show ("Growth Rate" : String) ≠ ""
      decide
    · show (match (if x.truthy = true then Except.ok (pfFmtSigned1 x ++ "% Growth")
            else Except.ok ("Growth Rate" : String)) with
          | Except.ok l => l ≠ ""
          | Except.error e => e = overflowMsg)
      by_cases ht : x.truthy = true
      · rw [if_pos ht]
        show pfFmtSigned1 x ++ "% Growth" ≠ ""
        exact append_ne_empty_of_right (by decide)
      · rw [if_neg ht]
        show ("Growth Rate" : String) ≠ ""
        decide
  rw [if_neg h1]
  by_cases h2 : mt = "volume"
  · rw [if_pos h2]
    rcases v with _ | (⟨q⟩ | ⟨pos⟩)
    · show ("Volume" : String) ≠ ""
      decide
    · show (match (if q ≠ 0 then
              Except.ok (toString (intTrunc q) ++ " " ++
                (match u with
                 | some uu => if uu ≠ "" then uu else "Items"
                 | none => ("Items" : String)))
            else Except.ok ("Volume" : String)) with
          | Except.ok l => l ≠ ""
          | Except.error e => e = overflowMsg)
      by_cases hq : q ≠ 0
      · rw [if_pos hq]
        show toString (intTrunc q) ++ " " ++
            (match u with
             | some uu => if uu ≠ "" then uu else "Items"
             | none => "Items") ≠ ""
        refine append_ne_empty_of_right ?_
        rcases u with _ | uu
        · show ("Items" : String) ≠ ""
          decide
        · show (if uu ≠ "" then uu else "Items") ≠ ""
          by_cases hu : uu ≠ ""
          · rw [if_pos hu]
            exact hu
          · rw [if_neg hu]
            decide
      · rw [if_neg hq]
        show ("Volume" : String) ≠ ""
        decide
    · show overflowMsg = overflowMsg
      rfl
  rw [if_neg h2]
  by_cases h3 : mt = "percentage"
  · rw [if_pos h3]
    rcases v with _ | x
    · show ("Percentage" : String) ≠ ""
      decide
    · show (match (if x.truthy = true then Except.ok (pfFmt1 x ++ "%")
            else Except.ok ("Percentage" : String)) with
          | Except.ok l => l ≠ ""
          | Except.error e => e = overflowMsg)
      by_cases ht : x.truthy = true
      · rw [if_pos ht]
        show pfFmt1 x ++ "%" ≠ ""
        exact append_ne_empty_of_right (by decide)
      · rw [if_neg ht]
        show ("Percentage" : String) ≠ ""
        decide
  rw [if_neg h3]
  show (if (pyTitleGo false (pyStripL (labelSub2 (labelSub1 t)))).isEmpty = true
      then "Metric"
      else String.mk (pyTitleGo false (pyStripL (labelSub2 (labelSub1 t))))) ≠ ""
  by_cases he : (pyTitleGo false (pyStripL (labelSub2 (labelSub1 t)))).isEmpty = true
  · rw [if_pos he]
    decide
  · rw [if_neg he]
    apply mk_ne_empty_of_ne_nil
    intro hnil
    apply he
    rw [hnil]
    rfl

set_option maxRecDepth 40000 in
/-- `float()` of the 309-nines capture is positive infinity. -/
theorem pyFloatF_overflowNumeral : pyFloatF overflowNumeral = PFloat.inf true := by
  have hmag : pyFloatSigned [] (signSplit overflowNumeral).2 = ((10 ^ 309 - 1 : ℕ) : ℚ) := by
    have e : pyFloatSigned [] (signSplit overflowNumeral).2
        = ((digitsToNat overflowNumeral : ℚ) + ((0 : ℕ) : ℚ) / (10 : ℚ) ^ (0 : ℕ)) := rfl
    rw [e]
    have hd : digitsToNat overflowNumeral = 10 ^ 309 - 1 := by decide
    rw [hd]
    norm_num
  unfold pyFloatF
  rw [hmag,
    if_pos (show overflowThreshold ≤ ((10 ^ 309 - 1 : ℕ) : ℚ) by
      rw [overflowThreshold]
      norm_num)]
  rfl

set_option maxRecDepth 40000 in
/-- **C7 counterexample.** `parse` does raise for some inputs: on the
metric string of 309 nines followed by `" requests"`, the `requests`
pattern captures the 309-digit numeral, `float()` saturates it to
infinity, the metric type is `volume`, and the volume branch of
`_generate_label` executes `int(parsed.value)` on the infinite value,
raising `OverflowError: cannot convert float infinity to integer`. -/
theorem c7_counterexample :
    parseChecked overflowMetricInput = Except.error overflowMsg := by
  have h1 : (extractValueAndUnitF (pyStrip overflowMetricInput).data).1
      = some (pyFloatF overflowNumeral) := rfl
  have h2 : (extractValueAndUnitF (pyStrip overflowMetricInput).data).2
      = some "requests" := rfl
  have h3 : determineType (pyStrip overflowMetricInput).data = "volume" := rfl
  have hlab : generateLabelF (pyStrip overflowMetricInput).data
      (some (pyFloatF overflowNumeral)) (some "requests") "volume"
        = Except.error overflowMsg := by
    rw [pyFloatF_overflowNumeral]
    rfl
  rw [parseChecked_eq, h1, h2, h3, hlab]
  rfl

/-- **C7 (amended).** For every string input, `parse` either returns a
record whose label is a non-empty string, or raises exactly the
`OverflowError` of `int(inf)` — which happens only when a captured
numeral overflows `float()` to infinity and reaches `int()` in the
volume branch of label generation. `parse` is not total. -/
theorem c7_parse_label_nonempty_or_overflow (s : String) :
    (match parseChecked s with
     | .ok p => p.label ≠ ""
     | .error e => e = overflowMsg) := by
  have h := generateLabelF_spec (pyStrip s).data (extractValueAndUnitF (pyStrip s).data).1
    (extractValueAndUnitF (pyStrip s).data).2 (determineType (pyStrip s).data)
  rcases hg : generateLabelF (pyStrip s).data (extractValueAndUnitF (pyStrip s).data).1
      (extractValueAndUnitF (pyStrip s).data).2 (determineType (pyStrip s).data)
    with ⟨e⟩ | ⟨l⟩
  · rw [parseChecked_eq, hg]
    show e = overflowMsg
    rw [hg] at h
    exact h
  · rw [parseChecked_eq, hg]
    show l ≠ ""
    rw [hg] at h
    exact h

/-- **C4.** During category-metric bundling (`original_value` starts
absent), `original_value` is computed by exactly one formula, selected in
priority order: (a) `recent_volume − increase` when both are present;
otherwise (b) `recent_volume / (1 + growth/100)` when `recent_volume` and
`growth` are present (with `growth = 0` defaulting to `recent_volume`);
otherwise (c) `increase / (growth/100)` when `increase` and `growth` are
present (with `growth = 0` defaulting to `0`); otherwise it stays absent. -/
theorem c4_original_value_formula (g inc rv : Option ℚ) :
    (calcOriginalValue ⟨g, inc, rv, none⟩).original_value
      = claimedOriginalValue g inc rv := by
  rcases rv with _ | rvv <;> rcases inc with _ | iv <;> rcases g with _ | gv <;>
    first
      | rfl
      | (by_cases hg : gv = 0 <;> simp [calcOriginalValue, claimedOriginalValue, hg])

/-- **C2.** For every positive `max_original_value`, a `DualBarChartFlowable`
with `original_value = 100` and `percent_increase = 50` computes an
"After Increase" bar exactly `1.5` times as wide as the "Original" bar:
both bars are scaled against the shared maximum
`max(max_original_value, |new_value|)` with `new_value = 100 * 1.5 = 150`. -/
theorem c2_dual_bar_after_increase_ratio (m : ℚ) (hm : 0 < m) :
    (dualBarDraw "Category" (some 100) (some 50) m 400 50).increaseBarWidth
      = (3 / 2) * (dualBarDraw "Category" (some 100) (some 50) m 400 50).originalBarWidth := by
  have e1 : (dualBarDraw "Category" (some 100) (some 50) m 400 50).increaseBarWidth
      = (if max m |(100 * (1 + 50 / 100) : ℚ)| > 0
          then min ((|(100 * (1 + 50 / 100) : ℚ)| / max m |(100 * (1 + 50 / 100) : ℚ)|)
            * (400 - 180)) (400 - 180)
          else 0) := rfl
  have e2 : (dualBarDraw "Category" (some 100) (some 50) m 400 50).originalBarWidth
      = (if max m |(100 * (1 + 50 / 100) : ℚ)| > 0
          then min ((|(100 : ℚ)| / max m |(100 * (1 + 50 / 100) : ℚ)|)
            * (400 - 180)) (400 - 180)
          else 0) := rfl
  rw [e1, e2]
  rw [show |(100 * (1 + 50 / 100) : ℚ)| = 150 by norm_num,
    show |(100 : ℚ)| = 100 by norm_num]
  have hms150 : (150 : ℚ) ≤ max m 150 := le_max_right _ _
  have hmspos : (0 : ℚ) < max m 150 := lt_of_lt_of_le (by norm_num) hms150
  rw [if_pos hmspos, if_pos hmspos]
  have hdiv : (150 : ℚ) / max m 150 ≤ 1 := by
    rw [div_le_one hmspos]
    exact hms150
  have hdiv2 : (100 : ℚ) / max m 150 ≤ 1 := by
    rw [div_le_one hmspos]
    linarith
  have h1 : ((150 : ℚ) / max m 150) * (400 - 180) ≤ 400 - 180 := by
    calc ((150 : ℚ) / max m 150) * (400 - 180)
        ≤ 1 * (400 - 180) := mul_le_mul_of_nonneg_right hdiv (by norm_num)
      _ = 400 - 180 := one_mul _
  have h2 : ((100 : ℚ) / max m 150) * (400 - 180) ≤ 400 - 180 := by
    calc ((100 : ℚ) / max m 150) * (400 - 180)
        ≤ 1 * (400 - 180) := mul_le_mul_of_nonneg_right hdiv2 (by norm_num)
      _ = 400 - 180 := one_mul _
  rw [min_eq_left h1, min_eq_left h2]
  have hne : max m 150 ≠ 0 := ne_of_gt hmspos
  field_simp
  ring

/-- **C2 witness** at `max_original_value = 40`. -/
theorem c2_witness :
    (0 : ℚ) < 40 ∧
      (dualBarDraw "Category" (some 100) (some 50) 40 400 50).increaseBarWidth
        = (3 / 2) * (dualBarDraw "Category" (some 100) (some 50) 40 400 50).originalBarWidth :=
  ⟨by norm_num, c2_dual_bar_after_increase_ratio 40 (by norm_num)⟩

/-- **C8.** Contrary to the claim, `HorizontalBarChartFlowable.draw` does
draw outside its bounding box: whenever the unclamped bar width overflows
the bounding width (`width < bar_area_x + bar_width`, which happens for
any `value` sufficiently larger than `max_value`), the rectangle painted
first extends past `width`; the shrink-and-reposition fallback repaints a
clamped bar and keeps the value text inside
(`value_x + value_width = width - 10`), but the oversized first rectangle
has already been painted, and the value text overlaps it. -/
theorem c8_bar_drawn_beyond_bounds
    (sw : String → String → ℚ → ℚ) (label : String) (value max_value width height : ℚ)
    (unit : Option String) (vw : ℚ)
    (hvwdef : sw (hbarValueText value unit) "Times-Bold" 9 = vw)
    (hvw : 0 ≤ vw)
    (hbwpos : 0 < hbarBarWidth value max_value width vw)
    (hmbw : 0 < hbarMaxBarWidth width vw)
    (hexceed : width < hbarBarAreaX width + hbarBarWidth value max_value width vw) :
    (horizontalBarDraw sw label value max_value width height unit).barRects
        = [(hbarBarAreaX width, 4, hbarBarWidth value max_value width vw, height - 8),
           (hbarBarAreaX width, 4, hbarMaxBarWidth width vw, height - 8)] ∧
      (horizontalBarDraw sw label value max_value width height unit).valueX + vw
        = width - 10 := by
  subst hvwdef
  set vw := sw (hbarValueText value unit) "Times-Bold" 9 with hv
  set bax := hbarBarAreaX width with hbax
  set bw := hbarBarWidth value max_value width vw with hbw
  set mbw := hbarMaxBarWidth width vw with hmbwdef
  have hover : bax + bw + 5 + vw > width - 5 := by linarith
  have hminle : mbw ≤ bw := by
    have h1 : mbw = width - bax - (vw + 10) - 5 := rfl
    linarith
  constructor
  · show ((if bax + bw + 5 + vw > width - 5 then
        if mbw > 0 then
          ((if bw > 0 then [(bax, (4 : ℚ), bw, height - 8)] else []) ++
            [(bax, 4, min bw mbw, height - 8)], min bw mbw, bax + min bw mbw + 5)
        else ((if bw > 0 then [(bax, (4 : ℚ), bw, height - 8)] else []), bw, bax + bw + 5)
      else ((if bw > 0 then [(bax, (4 : ℚ), bw, height - 8)] else []), bw, bax + bw + 5)).1)
      = [(bax, 4, bw, height - 8), (bax, 4, mbw, height - 8)]
    rw [if_pos hover, if_pos hmbw, if_pos hbwpos, min_eq_right hminle]
    rfl
  · show ((if bax + bw + 5 + vw > width - 5 then
        if mbw > 0 then
          ((if bw > 0 then [(bax, (4 : ℚ), bw, height - 8)] else []) ++
            [(bax, 4, min bw mbw, height - 8)], min bw mbw, bax + min bw mbw + 5)
        else ((if bw > 0 then [(bax, (4 : ℚ), bw, height - 8)] else []), bw, bax + bw + 5)
      else ((if bw > 0 then [(bax, (4 : ℚ), bw, height - 8)] else []), bw, bax + bw + 5)).2.2)
        + vw = width - 10
    rw [if_pos hover, if_pos hmbw, min_eq_right hminle]
    show bax + mbw + 5 + vw = width - 10
    have h1 : mbw = width - bax - (vw + 10) - 5 := rfl
    linarith

/-- **C10.** The ranking rule of `_detect_chart_type` tests the original
column names case-sensitively, while the later rules match lower-cased
names. Consequently, for every table whose ranking column is spelled
`Rank` (and that has no exact `rank`/`ranking_type` column), the ranking
rule does not fire and classification falls through to the rules after
it. -/
theorem c10_ranking_rule_case_sensitive (t : PyTable)
    (_hR : "Rank" ∈ t.colNames) (h1 : "rank" ∉ t.colNames)
    (h2 : "ranking_type" ∉ t.colNames) :
    detectChartType t = detectChartTypeSansRanking t := by
  unfold detectChartType detectChartTypeSansRanking
  by_cases he : (t.isEmptyDf || t.cols.isEmpty) = true
  · rw [if_pos he, if_pos he]
  · rw [if_neg he, if_neg he,
      if_neg (show ¬("ranking_type" ∈ t.colNames ∨ "rank" ∈ t.colNames) from by
        rintro (h | h)
        · exact h2 h
        · exact h1 h)]

/-- **C10 witness** at the concrete table with columns
`[Rank, category, primary_metric]`. -/
theorem c10_witness :
    "Rank" ∈ (⟨[("Rank", .int64), ("category", .object), ("primary_metric", .int64)],
        [[.intV 1, .strV "Parks", .intV 500]]⟩ : PyTable).colNames ∧
      detectChartType ⟨[("Rank", .int64), ("category", .object), ("primary_metric", .int64)],
        [[.intV 1, .strV "Parks", .intV 500]]⟩
        = detectChartTypeSansRanking
            ⟨[("Rank", .int64), ("category", .object), ("primary_metric", .int64)],
              [[.intV 1, .strV "Parks", .intV 500]]⟩ :=
  ⟨by decide,
    c10_ranking_rule_case_sensitive _ (by decide) (by decide) (by decide)⟩

/-- **C5 counterexample.** The non-empty table with columns
`[rank, category, primary_metric]` is classified `bar`, but the consumer
does **not** render it as a ranked table: the dispatch requires a
`ranking_type` column for the ranked-table path and instead runs the
generic bar-chart generator, whose output here is a row of vertical
bar-chart flowables; the ranked-table generator itself raises `KeyError`
on this table. -/
theorem c5_counterexample :
    detectChartType rankCatTable = ChartType.bar ∧
      productVisualization (fun _ => some rankCatTable) "ranked_product" 400
        = .ok (generateBarChartGeneric rankCatTable 400) ∧
      generateTop10VolumeChart rankCatTable 400 = .error "KeyError: ranking_type" ∧
      storyIsBarChartTable (generateBarChartGeneric rankCatTable 400) = true :=
  ⟨rfl, rfl, rfl, rfl⟩

/-- **C5 (amended).** A non-empty table with columns
`[rank, category, primary_metric]` is classified `bar` by the ranking
rule, and the consumer renders it through the **generic bar-chart
generator** (the ranked-table rendering is reserved for tables with a
`ranking_type` column). -/
theorem c5_rank_table_renders_generic_bars
    (rows : List (List PyVal)) (hne : rows ≠ [])
    (lookup : String → Option PyTable) (name : String) (w : ℚ)
    (hlk : lookup name = some ⟨rankCatCols, rows⟩) :
    detectChartType ⟨rankCatCols, rows⟩ = ChartType.bar ∧
      productVisualization lookup name w
        = .ok (generateBarChartGeneric ⟨rankCatCols, rows⟩ w) := by
  rcases rows with _ | ⟨r, rs⟩
  · exact absurd rfl hne
  constructor
  · rfl
  · unfold productVisualization
    rw [hlk]
    rfl

/-- **C5 witness** at the concrete one-row table. -/
theorem c5_witness :
    detectChartType ⟨rankCatCols, [[.intV 1, .strV "Parks", .intV 500]]⟩ = ChartType.bar ∧
      productVisualization (fun _ => some ⟨rankCatCols, [[.intV 1, .strV "Parks", .intV 500]]⟩)
          "p" 400
        = .ok (generateBarChartGeneric
            ⟨rankCatCols, [[.intV 1, .strV "Parks", .intV 500]]⟩ 400) :=
  c5_rank_table_renders_generic_bars [[.intV 1, .strV "Parks", .intV 500]] (by decide)
    (fun _ => some ⟨rankCatCols, [[.intV 1, .strV "Parks", .intV 500]]⟩) "p" 400 rfl

/-- **C1.** Contrary to the claim, a product whose dataset the Tabular
Data Source cannot locate is **not** omitted entirely: no error is raised
and no chart is emitted, but the subsection heading (here
`"Foo Bar Analysis"`) and the section heading are still added to the
document, because the guard `len(products_content) > 1` is always
satisfied — the heading's spacer is counted too (the code comment "More
than just the heading" shows the intent). The document produced without
the product contains no Supporting Data Analysis material at all. -/
theorem c1_missing_dataset_still_emits_heading :
    productsSection [⟨"foo_bar", "why"⟩] (fun _ => none) 400
        = .ok [StoryItem.keepTogether
            [.spacer 1 20, .paragraph "Supporting Data Analysis" "heading", .spacer 1 12,
             .paragraph "Foo Bar Analysis" "heading", .spacer 1 12]] ∧
      (match productsSection [⟨"foo_bar", "why"⟩] (fun _ => none) 400 with
        | .ok story => storyHasParagraph "Foo Bar Analysis" story
        | .error _ => false) = true ∧
      productsSection [] (fun _ => none) 400 = .ok [] :=
  ⟨rfl, by rfl, rfl⟩

/-- **C8 witness**: the failing input — label `"Backlog"`, `value = 10`,
`max_value = 1`, `width = 400`, `height = 30`, no unit, with every string
25 units wide. The first painted bar rectangle is
`(85, 4, 2800, 22)`: its right edge `2885` lies far beyond the bounding
width `400`. -/
theorem c8_witness :
    (horizontalBarDraw constWidth25 "Backlog" 10 1 400 30 none).barRects
        = [(hbarBarAreaX 400, 4, hbarBarWidth 10 1 400 25, 30 - 8),
           (hbarBarAreaX 400, 4, hbarMaxBarWidth 400 25, 30 - 8)] ∧
      (horizontalBarDraw constWidth25 "Backlog" 10 1 400 30 none).valueX + 25 = 400 - 10 := by
  have hbw2800 : hbarBarWidth 10 1 400 25 = 2800 := by
    rw [hbarBarWidth, if_pos (by norm_num : (1 : ℚ) > 0),
      abs_of_pos (by norm_num : (0 : ℚ) < 10), hbarBarAreaWidth, hbarBarAreaX]
    norm_num
  exact c8_bar_drawn_beyond_bounds constWidth25 "Backlog" 10 1 400 30 none 25 rfl
    (by norm_num)
    (by rw [hbw2800]; norm_num)
    (by rw [hbarMaxBarWidth, hbarBarAreaX]; norm_num)
    (by rw [hbw2800, hbarBarAreaX]; norm_num)

end Compass
